import Mathlib

/-!
Verification of the handwriting-stroke validator, mistake-escalation engine,
error locator and glyph-data handling of the tingxie practice app.

The embedding follows the TypeScript sources:
  * `src/components/writing/StrokeTracer.tsx` — `validateStroke`, `totalStrokes`,
    `isComplete`, gesture commit (`handleCorrect` / `handleIncorrect`);
  * `src/app/lesson/[lessonId]/dictation.tsx` — `findErrorCircle`, `charToCanvas`,
    the escalation state (`charAttempts` / `errorPhase` / `postAnimation`),
    `handleCheck`, `handleDismissHint`, `handleDismissAnimation`, `advanceChar`,
    and the character-change reset effect;
  * `src/constants/layout.ts` — `WRITING_GRID_SIZE`;
  * `src/utils/characterLoader.ts` — `CharacterData`, `loadCharacterData`.

JavaScript numbers are modelled as real numbers; SVG path strings are modelled
by the point list their `extractPathPoints` parse yields.
-/

/-- A point in surface (canvas pixel) space, `{x, y}` in the code. -/
abbrev Pt : Type := ℝ × ℝ

/-- Euclidean distance, the code's `Math.sqrt(dx*dx + dy*dy)` / `Math.hypot`. -/
noncomputable def distPt (p q : Pt) : ℝ :=
  Real.sqrt ((p.1 - q.1) ^ 2 + (p.2 - q.2) ^ 2)

/-- Hanzi-writer glyph data (`CharacterData` in `utils/characterLoader.ts`):
`strokes` are the outline paths (modelled by their extracted point clouds,
in glyph space 0-1024 y-up) and `medians` the skeleton polylines. -/
structure CharacterData where
  strokes : List (List Pt)
  medians : List (List Pt)

/-- The grid constant of `src/constants/layout.ts`:
`WRITING_GRID_SIZE = IS_TABLET ? 320 : Math.min(width - 64, 300)`. -/
noncomputable def WRITING_GRID_SIZE (width : ℝ) (isTablet : Bool) : ℝ :=
  if isTablet then 320 else min (width - 64) 300

/-- The validator's `const scale = WRITING_GRID_SIZE / 1024`. -/
noncomputable def medScale (G : ℝ) : ℝ := G / 1024

/-- Median point to screen coordinates: `(m[0] * scale, (900 - m[1]) * scale)`. -/
noncomputable def medToScreen (G : ℝ) (m : Pt) : Pt :=
  (m.1 * medScale G, (900 - m.2) * medScale G)

/-- `expectedStartX/Y` of `validateStroke`: the median's first point on screen. -/
noncomputable def expectedStartScr (median : List Pt) (G : ℝ) : Pt :=
  medToScreen G (median.headD (0, 0))

/-- `expectedEndX/Y` of `validateStroke`: the median's last point on screen. -/
noncomputable def expectedEndScr (median : List Pt) (G : ℝ) : Pt :=
  medToScreen G (median.getLastD (0, 0))

/-- `expectedLen = Math.sqrt(expDx * expDx + expDy * expDy)`. -/
noncomputable def expectedLen (median : List Pt) (G : ℝ) : ℝ :=
  distPt (expectedEndScr median G) (expectedStartScr median G)

/-- `drawnStart = drawnPoints[0]`. -/
def drawnStartPt (points : List Pt) : Pt := points.headD (0, 0)

/-- `drawnEnd = drawnPoints[drawnPoints.length - 1]`. -/
def drawnEndPt (points : List Pt) : Pt := points.getLastD (0, 0)

/-- `drawnLen = Math.sqrt(drawnDx * drawnDx + drawnDy * drawnDy)`. -/
noncomputable def drawnLen (points : List Pt) : ℝ :=
  distPt (drawnEndPt points) (drawnStartPt points)

/-- `startDist`: distance from the drawn start to the expected start. -/
noncomputable def startDist (median points : List Pt) (G : ℝ) : ℝ :=
  distPt (drawnStartPt points) (expectedStartScr median G)

/-- `endDist`: distance from the drawn end to the expected end. -/
noncomputable def endDist (median points : List Pt) (G : ℝ) : ℝ :=
  distPt (drawnEndPt points) (expectedEndScr median G)

/-- `totalPathLen`: sum of the distances between consecutive drawn points. -/
noncomputable def pathLength : List Pt → ℝ
  | p :: q :: rest => distPt q p + pathLength (q :: rest)
  | _ => 0

/-- Minimum distance from `p` to any point of a (nonempty) list; the code's
inner loop with `minDist = Infinity` then `min` over all points. The `[]`
case is never reached by the callers (they guard on nonemptiness). -/
noncomputable def minDistTo (p : Pt) : List Pt → ℝ
  | [] => 0
  | q :: qs => qs.foldl (fun acc r => min acc (distPt p r)) (distPt p q)

/-- The expected median mapped to screen space (`expMedianScreen` in the code). -/
noncomputable def medianScreen (median : List Pt) (G : ℝ) : List Pt :=
  median.map (medToScreen G)

/-- The direction check's
`dot = (drawnDx * expDx + drawnDy * expDy) / (drawnLen * expectedLen + 0.001)`. -/
noncomputable def dirDot (median points : List Pt) (G : ℝ) : ℝ :=
  (((drawnEndPt points).1 - (drawnStartPt points).1) *
      ((expectedEndScr median G).1 - (expectedStartScr median G).1) +
    ((drawnEndPt points).2 - (drawnStartPt points).2) *
      ((expectedEndScr median G).2 - (expectedStartScr median G).2)) /
  (drawnLen points * expectedLen median G + 0.001)

/-- Outcome of one gesture release in `StrokeTracer`:
`cleared` is the silent discard (`setCurrentPath(''); return`), `accepted`
is `handleCorrect()`, `rejected` is `handleIncorrect()`. -/
inductive VOutcome
  | cleared
  | accepted
  | rejected
deriving DecidableEq

open Classical in
/-- The validator `validateStroke` of `StrokeTracer.tsx`, one if-chain per
source check, in source order. `G` is `WRITING_GRID_SIZE`. -/
noncomputable def validateStroke (data : Option CharacterData) (hideGuide : Bool)
    (strokeIdx : ℕ) (points : List Pt) (G : ℝ) : VOutcome :=
  match data with
  | none => VOutcome.cleared
  | some d =>
    if points.length < 2 then VOutcome.cleared
    else if hideGuide then VOutcome.accepted
    else
      match d.medians[strokeIdx]? with
      | none => VOutcome.accepted
      | some median =>
        if median.length < 2 then VOutcome.accepted
        else if expectedLen median G < 25 then
          (if startDist median points G ≤ G * 0.18 then VOutcome.accepted
           else VOutcome.rejected)
        else if G * 0.18 < startDist median points G then VOutcome.rejected
        else if drawnLen points < expectedLen median G * 0.25 then VOutcome.rejected
        else if G * 0.20 < endDist median points G then VOutcome.rejected
        else if 5 < drawnLen points ∧ 2 < pathLength points / drawnLen points then
          VOutcome.rejected
        else if ∃ p ∈ points, G * 0.22 < minDistTo p (medianScreen median G) then
          VOutcome.rejected
        else if 0.707 < dirDot median points G then VOutcome.accepted
        else VOutcome.rejected

/-- `totalStrokes = characterData?.strokes.length ?? 0`. -/
def totalStrokes (data : Option CharacterData) : ℕ :=
  match data with
  | some d => d.strokes.length
  | none => 0

/-- `isComplete = currentStrokeIdx >= totalStrokes`. -/
def isComplete (currentStrokeIdx total : ℕ) : Bool :=
  decide (total ≤ currentStrokeIdx)

/-- Per-character tracer state: `currentStrokeIdx` and the committed strokes. -/
structure TracerSession where
  currentStrokeIdx : ℕ
  drawnStrokes : List (List Pt)

/-- Net effect of one gesture release: `handleCorrect` commits the path and
advances the stroke index; `handleIncorrect` and the silent discard leave
the committed list and the index unchanged. -/
noncomputable def releaseGesture (data : Option CharacterData) (hideGuide : Bool)
    (G : ℝ) (s : TracerSession) (points : List Pt) : TracerSession :=
  match validateStroke data hideGuide s.currentStrokeIdx points G with
  | VOutcome.accepted =>
      ⟨s.currentStrokeIdx + 1, s.drawnStrokes ++ [points]⟩
  | _ => s

/-- C6: a drawn input with fewer than 2 points is discarded before any
geometric check runs: the outcome is the silent clear, the stroke is never
accepted, nothing is committed and the stroke index is unchanged. -/
theorem degenerate_input_never_accepted (data : Option CharacterData)
    (hideGuide : Bool) (strokeIdx : ℕ) (points : List Pt) (G : ℝ)
    (s : TracerSession) (hp : points.length < 2) :
    validateStroke data hideGuide strokeIdx points G = VOutcome.cleared ∧
    validateStroke data hideGuide strokeIdx points G ≠ VOutcome.accepted ∧
    releaseGesture data hideGuide G s points = s := by
  have h1 : ∀ idx, validateStroke data hideGuide idx points G = VOutcome.cleared := by
    intro idx
    cases data with
    | none => rfl
    | some d => simp [validateStroke, hp]
  refine ⟨h1 _, by simp [h1], ?_⟩
  unfold releaseGesture
  rw [h1]

/-- Witness for C6 at a concrete one-point gesture. -/
theorem degenerate_input_never_accepted_w :
    ([((3 : ℝ), (4 : ℝ))] : List Pt).length < 2 ∧
    validateStroke (some ⟨[], []⟩) false 0 [((3 : ℝ), (4 : ℝ))] 300 =
      VOutcome.cleared :=
  ⟨by norm_num,
   (degenerate_input_never_accepted (some ⟨[], []⟩) false 0 _ 300 ⟨0, []⟩
      (by norm_num)).1⟩

/-- C7: with glyph data present and at least 2 drawn points, an absent or
sub-2-point expected median makes the validator accept unconditionally,
regardless of the drawn geometry (fail-open). -/
theorem missing_median_accepts (d : CharacterData) (hideGuide : Bool)
    (strokeIdx : ℕ) (points : List Pt) (G : ℝ) (hp : 2 ≤ points.length)
    (hmed : d.medians[strokeIdx]? = none ∨
      ∃ m, d.medians[strokeIdx]? = some m ∧ m.length < 2) :
    validateStroke (some d) hideGuide strokeIdx points G = VOutcome.accepted := by
  cases hideGuide with
  | true => simp [validateStroke, Nat.not_lt.mpr hp]
  | false =>
    rcases hmed with h | ⟨m, hm, hlen⟩
    · simp [validateStroke, Nat.not_lt.mpr hp, h]
    · simp [validateStroke, Nat.not_lt.mpr hp, hm, hlen]

/-- Witness for C7: empty median table, a concrete 2-point gesture. -/
theorem missing_median_accepts_w :
    validateStroke (some ⟨[], []⟩) false 0 [((0 : ℝ), 0), ((5 : ℝ), 5)] 300 =
      VOutcome.accepted :=
  missing_median_accepts ⟨[], []⟩ false 0 _ 300 (by norm_num) (Or.inl rfl)

/-- C3 counterexample: with glyph data entirely absent, `totalStrokes` is 0,
not 1, and a concrete non-empty gesture is not accepted (it is silently
discarded, so no character-complete arises from it). -/
theorem noglyph_single_stroke_cex :
    totalStrokes none ≠ 1 ∧
    validateStroke none false 0 [((10 : ℝ), 10), ((40 : ℝ), 40)] 300 ≠
      VOutcome.accepted := by
  refine ⟨by decide, ?_⟩
  have h : validateStroke none false 0 [((10 : ℝ), 10), ((40 : ℝ), 40)] 300 =
      VOutcome.cleared := rfl
  rw [h]
  decide

/-- Evaluation helper: a Euclidean distance whose value is the nonnegative `v`
with `v ^ 2` matching the coordinate arithmetic. -/
theorem distPt_num (a b c d v : ℝ) (hv : 0 ≤ v)
    (h : v ^ 2 = (a - c) ^ 2 + (b - d) ^ 2) : distPt (a, b) (c, d) = v := by
  unfold distPt
  simp only [Prod.fst, Prod.snd]
  rw [← h, Real.sqrt_sq hv]

/-- Expected length of the concrete short median used by the C2 inputs. -/
theorem dotMedian_expectedLen :
    expectedLen [((64 : ℝ), 900), ((96 : ℝ), 900)] 320 = 10 := by
  unfold expectedLen expectedStartScr expectedEndScr medToScreen medScale
  norm_num
  exact distPt_num _ _ _ _ 10 (by norm_num) (by norm_num)

/-- Start distance of the concrete C2 drawn input (starts exactly on target). -/
theorem dotPts_startDist :
    startDist [((64 : ℝ), 900), ((96 : ℝ), 900)]
      [((20 : ℝ), 0), ((21 : ℝ), 0)] 320 = 0 := by
  unfold startDist drawnStartPt expectedStartScr medToScreen medScale
  norm_num
  exact distPt_num _ _ _ _ 0 (by norm_num) (by norm_num)

/-- Drawn length of the concrete C2 drawn input. -/
theorem dotPts_drawnLen :
    drawnLen [((20 : ℝ), 0), ((21 : ℝ), 0)] = 1 := by
  unfold drawnLen drawnStartPt drawnEndPt
  norm_num [List.getLastD]
  exact distPt_num _ _ _ _ 1 (by norm_num) (by norm_num)

open Classical in
/-- Modelled from the spec's words for claim C2 only, to be compared with
`validateStroke`: identical except that the short-stroke cutoff is
proportional to the grid (`expectedLen < 2.5% of gridSize`) as the claim
states, instead of the source's absolute constant `25`. -/
noncomputable def validateStrokeClaimedCutoff (data : Option CharacterData)
    (hideGuide : Bool) (strokeIdx : ℕ) (points : List Pt) (G : ℝ) : VOutcome :=
  match data with
  | none => VOutcome.cleared
  | some d =>
    if points.length < 2 then VOutcome.cleared
    else if hideGuide then VOutcome.accepted
    else
      match d.medians[strokeIdx]? with
      | none => VOutcome.accepted
      | some median =>
        if median.length < 2 then VOutcome.accepted
        else if expectedLen median G < G * 0.025 then
          (if startDist median points G ≤ G * 0.18 then VOutcome.accepted
           else VOutcome.rejected)
        else if G * 0.18 < startDist median points G then VOutcome.rejected
        else if drawnLen points < expectedLen median G * 0.25 then VOutcome.rejected
        else if G * 0.20 < endDist median points G then VOutcome.rejected
        else if 5 < drawnLen points ∧ 2 < pathLength points / drawnLen points then
          VOutcome.rejected
        else if ∃ p ∈ points, G * 0.22 < minDistTo p (medianScreen median G) then
          VOutcome.rejected
        else if 0.707 < dirDot median points G then VOutcome.accepted
        else VOutcome.rejected

/-- C2 counterexample: at the tablet grid size 320 and a median of expected
length 10, the source validator takes the short-stroke branch (its cutoff is
the absolute constant 25) and accepts a 1-pixel poke at the start point, while
the claimed cutoff (2.5% of gridSize = 8) would run the full checks and reject
the same input at the minimum-length check. The cutoff is therefore neither
~2.5% of gridSize nor proportional to gridSize. -/
theorem short_stroke_cutoff_cex :
    validateStroke (some ⟨[], [[((64 : ℝ), 900), ((96 : ℝ), 900)]]⟩) false 0
      [((20 : ℝ), 0), ((21 : ℝ), 0)] 320 = VOutcome.accepted ∧
    validateStrokeClaimedCutoff (some ⟨[], [[((64 : ℝ), 900), ((96 : ℝ), 900)]]⟩)
      false 0 [((20 : ℝ), 0), ((21 : ℝ), 0)] 320 = VOutcome.rejected := by
  constructor
  · simp only [validateStrokeClaimedCutoff, validateStroke]
    norm_num [dotMedian_expectedLen, dotPts_startDist]
  · simp only [validateStrokeClaimedCutoff]
    norm_num [dotMedian_expectedLen, dotPts_startDist, dotPts_drawnLen]

/-- C2 amended: the short-stroke (dot) branch triggers exactly when the
expected median\'s straight-line screen length is below the absolute constant
25 (about 8% of the actual 300-320 pixel grids, not ~2.5% of gridSize and not
proportional to gridSize), and in that branch the stroke is accepted if and
only if the drawn start lies within 18% of gridSize of the expected start,
with all remaining checks skipped. -/
theorem short_stroke_dot_case (d : CharacterData) (strokeIdx : ℕ)
    (points : List Pt) (G : ℝ) (median : List Pt)
    (hm : d.medians[strokeIdx]? = some median) (hml : 2 ≤ median.length)
    (hp : 2 ≤ points.length) (hshort : expectedLen median G < 25) :
    validateStroke (some d) false strokeIdx points G =
      (if startDist median points G ≤ G * 0.18 then VOutcome.accepted
       else VOutcome.rejected) := by
  simp [validateStroke, Nat.not_lt.mpr hp, hm, Nat.not_lt.mpr hml, hshort]

/-- Witness for the C2 amended theorem at the concrete dot input. -/
theorem short_stroke_dot_case_w :
    validateStroke (some ⟨[], [[((64 : ℝ), 900), ((96 : ℝ), 900)]]⟩) false 0
      [((20 : ℝ), 0), ((21 : ℝ), 0)] 320 = VOutcome.accepted := by
  rw [short_stroke_dot_case ⟨[], [[((64 : ℝ), 900), ((96 : ℝ), 900)]]⟩ 0
      [((20 : ℝ), 0), ((21 : ℝ), 0)] 320 [((64 : ℝ), 900), ((96 : ℝ), 900)]
      (by simp) (by norm_num) (by norm_num)
      (by rw [dotMedian_expectedLen]; norm_num)]
  rw [if_pos (by rw [dotPts_startDist]; norm_num)]

/-- C8: for every stroke reaching the sinuosity check (glyph data and a
2-point-plus median present, guided mode, not the dot case, and the start,
minimum-length and end checks all passing), the drawn length is necessarily
above the check\'s `drawnLen > 5` guard — so the check is never silently
skipped — and a path-length-to-displacement ratio above 2.0 makes the
validator reject. -/
theorem sinuosity_guard (d : CharacterData) (strokeIdx : ℕ) (points : List Pt)
    (G : ℝ) (median : List Pt)
    (hm : d.medians[strokeIdx]? = some median) (hml : 2 ≤ median.length)
    (hp : 2 ≤ points.length)
    (h1 : ¬ expectedLen median G < 25)
    (h2 : ¬ G * 0.18 < startDist median points G)
    (h3 : ¬ drawnLen points < expectedLen median G * 0.25)
    (h4 : ¬ G * 0.20 < endDist median points G) :
    5 < drawnLen points ∧
    (2 < pathLength points / drawnLen points →
      validateStroke (some d) false strokeIdx points G = VOutcome.rejected) := by
  have hlen : 5 < drawnLen points := by
    push_neg at h1 h3
    nlinarith
  refine ⟨hlen, fun hr => ?_⟩
  simp [validateStroke, Nat.not_lt.mpr hp, hm, Nat.not_lt.mpr hml, h1, h2, h3, h4,
    hlen, hr]

/-- Witness for C8: a zigzag stroke with perfect endpoints and ratio 5. -/
theorem sinuosity_guard_w :
    validateStroke (some ⟨[], [[((40 : ℝ), 900), ((240 : ℝ), 900)]]⟩) false 0
      [((20 : ℝ), 0), ((320 : ℝ), 0), ((120 : ℝ), 0)] 512 = VOutcome.rejected := by
  have hE : expectedLen [((40 : ℝ), 900), ((240 : ℝ), 900)] 512 = 100 := by
    unfold expectedLen expectedStartScr expectedEndScr medToScreen medScale
    norm_num
    exact distPt_num _ _ _ _ 100 (by norm_num) (by norm_num)
  have hS : startDist [((40 : ℝ), 900), ((240 : ℝ), 900)]
      [((20 : ℝ), 0), ((320 : ℝ), 0), ((120 : ℝ), 0)] 512 = 0 := by
    unfold startDist drawnStartPt expectedStartScr medToScreen medScale
    norm_num
    exact distPt_num _ _ _ _ 0 (by norm_num) (by norm_num)
  have hEnd : endDist [((40 : ℝ), 900), ((240 : ℝ), 900)]
      [((20 : ℝ), 0), ((320 : ℝ), 0), ((120 : ℝ), 0)] 512 = 0 := by
    unfold endDist drawnEndPt expectedEndScr medToScreen medScale
    norm_num [List.getLastD]
    exact distPt_num _ _ _ _ 0 (by norm_num) (by norm_num)
  have hD : drawnLen [((20 : ℝ), 0), ((320 : ℝ), 0), ((120 : ℝ), 0)] = 100 := by
    unfold drawnLen drawnStartPt drawnEndPt
    norm_num [List.getLastD]
    exact distPt_num _ _ _ _ 100 (by norm_num) (by norm_num)
  have hP : pathLength [((20 : ℝ), 0), ((320 : ℝ), 0), ((120 : ℝ), 0)] = 500 := by
    simp only [pathLength]
    rw [distPt_num _ _ _ _ 300 (by norm_num) (by norm_num),
      distPt_num _ _ _ _ 200 (by norm_num) (by norm_num)]
    norm_num
  exact (sinuosity_guard ⟨[], [[((40 : ℝ), 900), ((240 : ℝ), 900)]]⟩ 0
      [((20 : ℝ), 0), ((320 : ℝ), 0), ((120 : ℝ), 0)] 512
      [((40 : ℝ), 900), ((240 : ℝ), 900)]
      (by simp) (by norm_num) (by norm_num)
      (by rw [hE]; norm_num) (by rw [hS]; norm_num)
      (by rw [hD, hE]; norm_num) (by rw [hEnd]; norm_num)).2
    (by rw [hP, hD]; norm_num)

/-- C3 amended: with glyph data entirely absent, `totalStrokes` degrades to 0,
so the character counts as complete before any drawing (`isComplete` holds at
stroke index 0), and every gesture — of any size — is silently discarded:
the validator never accepts it and the session never changes. -/
theorem noglyph_fallback_behavior (hideGuide : Bool) (strokeIdx : ℕ)
    (points : List Pt) (G : ℝ) (s : TracerSession) :
    totalStrokes none = 0 ∧
    isComplete 0 (totalStrokes none) = true ∧
    validateStroke none hideGuide strokeIdx points G = VOutcome.cleared ∧
    releaseGesture none hideGuide G s points = s := by
  refine ⟨rfl, rfl, rfl, ?_⟩
  unfold releaseGesture
  rfl

/-- `charToCanvas` of `dictation.tsx`: glyph space (0-1024, y-up, baseline 900)
to canvas pixel space. -/
noncomputable def charToCanvas (p : Pt) (G : ℝ) : Pt :=
  (p.1 / 1024 * G, (900 - p.2) / 1024 * G)

/-- The hint circle `{ cx, cy, r }` returned by `findErrorCircle`. -/
structure ErrCircle where
  cx : ℝ
  cy : ℝ
  r : ℝ

/-- The `centroid()` fallback of `findErrorCircle`: mean drawn point, radius
`gridSize * 0.28`. -/
noncomputable def errCentroid (drawn : List Pt) (G : ℝ) : ErrCircle :=
  ⟨(drawn.map Prod.fst).sum / drawn.length,
   (drawn.map Prod.snd).sum / drawn.length, G * 0.28⟩

/-- The worst-point loop of `findErrorCircle`: fold carrying
`(maxDist, worstPt)`, initialised to `(0, drawn[0])`, updating on a strict
increase of the minimum distance to the correct points. -/
noncomputable def worstPoint (drawn correct : List Pt) : ℝ × Pt :=
  drawn.foldl
    (fun acc dp =>
      if acc.1 < minDistTo dp correct then (minDistTo dp correct, dp) else acc)
    (0, drawn.headD (0, 0))

/-- All reference stroke outline points transformed into surface space
(the `correct` array of `findErrorCircle`). -/
noncomputable def correctPts (d : CharacterData) (G : ℝ) : List Pt :=
  (d.strokes.map (fun s => s.map (fun p => charToCanvas p G))).flatten

open Classical in
/-- `findErrorCircle` of `dictation.tsx`; `drawnPaths` is the list of drawn
paths, each modelled by its extracted point list. -/
noncomputable def findErrorCircle (drawnPaths : List (List Pt))
    (data : Option CharacterData) (G : ℝ) : Option ErrCircle :=
  if (drawnPaths.flatten).length = 0 then none
  else
    match data with
    | none => some (errCentroid drawnPaths.flatten G)
    | some d =>
      if d.strokes.length = 0 then some (errCentroid drawnPaths.flatten G)
      else if (correctPts d G).length = 0 then some (errCentroid drawnPaths.flatten G)
      else if G * 0.05 < (worstPoint drawnPaths.flatten (correctPts d G)).1 then
        some ⟨(worstPoint drawnPaths.flatten (correctPts d G)).2.1,
              (worstPoint drawnPaths.flatten (correctPts d G)).2.2,
              max (G * 0.22) ((worstPoint drawnPaths.flatten (correctPts d G)).1 * 0.55)⟩
      else some (errCentroid drawnPaths.flatten G)

/-- Unfolding equation of `findErrorCircle` at absent glyph data. -/
theorem findErrorCircle_none (drawnPaths : List (List Pt)) (G : ℝ) :
    findErrorCircle drawnPaths none G =
      if (drawnPaths.flatten).length = 0 then none
      else some (errCentroid drawnPaths.flatten G) := rfl

/-- Unfolding equation of `findErrorCircle` at present glyph data. -/
theorem findErrorCircle_some (drawnPaths : List (List Pt)) (d : CharacterData)
    (G : ℝ) :
    findErrorCircle drawnPaths (some d) G =
      if (drawnPaths.flatten).length = 0 then none
      else if d.strokes.length = 0 then some (errCentroid drawnPaths.flatten G)
      else if (correctPts d G).length = 0 then
        some (errCentroid drawnPaths.flatten G)
      else if G * 0.05 < (worstPoint drawnPaths.flatten (correctPts d G)).1 then
        some ⟨(worstPoint drawnPaths.flatten (correctPts d G)).2.1,
              (worstPoint drawnPaths.flatten (correctPts d G)).2.2,
              max (G * 0.22)
                ((worstPoint drawnPaths.flatten (correctPts d G)).1 * 0.55)⟩
      else some (errCentroid drawnPaths.flatten G) := rfl

/-- Helper for C9: on a non-empty drawn point set the locator returns a
circle of positive radius, of one of the two source shapes. -/
theorem findErrorCircle_pos (drawnPaths : List (List Pt))
    (data : Option CharacterData) (G : ℝ) (hG : 0 < G)
    (hne : (drawnPaths.flatten).length ≠ 0) :
    ∃ c, findErrorCircle drawnPaths data G = some c ∧ 0 < c.r ∧
      (c = errCentroid drawnPaths.flatten G ∨
        ∃ d, data = some d ∧
          G * 0.05 < (worstPoint drawnPaths.flatten (correctPts d G)).1 ∧
          c.r = max (G * 0.22)
            ((worstPoint drawnPaths.flatten (correctPts d G)).1 * 0.55)) := by
  have hcen : 0 < (errCentroid drawnPaths.flatten G).r := by
    show 0 < G * 0.28
    linarith
  cases data with
  | none =>
    rw [findErrorCircle_none, if_neg hne]
    exact ⟨_, rfl, hcen, Or.inl rfl⟩
  | some d =>
    rw [findErrorCircle_some, if_neg hne]
    by_cases h1 : d.strokes.length = 0
    · rw [if_pos h1]
      exact ⟨_, rfl, hcen, Or.inl rfl⟩
    · rw [if_neg h1]
      by_cases h2 : (correctPts d G).length = 0
      · rw [if_pos h2]
        exact ⟨_, rfl, hcen, Or.inl rfl⟩
      · rw [if_neg h2]
        by_cases h3 : G * 0.05 < (worstPoint drawnPaths.flatten (correctPts d G)).1
        · rw [if_pos h3]
          refine ⟨_, rfl, ?_, Or.inr ⟨d, rfl, h3, rfl⟩⟩
          exact lt_of_lt_of_le (by linarith) (le_max_left _ _)
        · rw [if_neg h3]
          exact ⟨_, rfl, hcen, Or.inl rfl⟩

/-- C9: for positive gridSize the Error Locator returns `null` exactly when
the extracted drawn point set is empty; otherwise it returns a circle of
strictly positive radius, which is either the centroid fallback (radius 28%
of gridSize) or, when the worst-point distance beats the 5% noise floor, the
worst-point circle of radius `max(22% of gridSize, 55% of worst distance)`. -/
theorem error_locator_circle (drawnPaths : List (List Pt))
    (data : Option CharacterData) (G : ℝ) (hG : 0 < G) :
    (findErrorCircle drawnPaths data G = none ↔ drawnPaths.flatten = []) ∧
    (∀ c, findErrorCircle drawnPaths data G = some c → 0 < c.r) ∧
    (∀ c, findErrorCircle drawnPaths data G = some c →
      c = errCentroid drawnPaths.flatten G ∨
        ∃ d, data = some d ∧
          G * 0.05 < (worstPoint drawnPaths.flatten (correctPts d G)).1 ∧
          c.r = max (G * 0.22)
            ((worstPoint drawnPaths.flatten (correctPts d G)).1 * 0.55)) := by
  by_cases hd : (drawnPaths.flatten).length = 0
  · have hnil : drawnPaths.flatten = [] := List.length_eq_zero.mp hd
    have h : findErrorCircle drawnPaths data G = none := by
      cases data with
      | none => rw [findErrorCircle_none, if_pos hd]
      | some d => rw [findErrorCircle_some, if_pos hd]
    refine ⟨⟨fun _ => hnil, fun _ => h⟩, ?_, ?_⟩ <;> intro c hc <;> rw [h] at hc <;>
      cases hc
  · obtain ⟨c, hc, hr, hshape⟩ := findErrorCircle_pos drawnPaths data G hG hd
    refine ⟨⟨fun h => absurd (h ▸ hc) (by simp), fun h =>
      absurd (List.length_eq_zero.mpr h) hd⟩, ?_, ?_⟩
    · intro c' h'
      rw [hc] at h'
      exact (Option.some.inj h') ▸ hr
    · intro c' h'
      rw [hc] at h'
      exact (Option.some.inj h') ▸ hshape

/-- Witness for C9 at a concrete two-point drawing without glyph data. -/
theorem error_locator_circle_w :
    findErrorCircle [[((1 : ℝ), 2), ((3 : ℝ), 2)]] none 100 ≠ none ∧
    (∀ c, findErrorCircle [[((1 : ℝ), 2), ((3 : ℝ), 2)]] none 100 = some c →
      0 < c.r) := by
  have h := error_locator_circle [[((1 : ℝ), 2), ((3 : ℝ), 2)]] none 100 (by norm_num)
  exact ⟨fun hn => by simpa using h.1.mp hn, h.2.1⟩

/-- The `errorPhase` state of `DictationScreen`: `'none' | 'hint' | 'animation'`. -/
inductive ErrorPhase
  | none
  | hint
  | animation
deriving DecidableEq

/-- The `feedback` state of `DictationScreen`: `'correct' | 'incorrect' | null`
(`null` modelled by `Option`). -/
inductive Feedback
  | correct
  | incorrect
deriving DecidableEq

/-- The escalation fields of `DictationScreen`:
`charAttempts`, `errorPhase`, `postAnimation`, `feedback`. -/
structure EscState where
  charAttempts : ℕ
  errorPhase : ErrorPhase
  postAnimation : Bool
  feedback : Option Feedback
deriving DecidableEq

/-- Initial `useState` values: `(0, 'none', false, null)`. -/
def escInit : EscState := ⟨0, ErrorPhase.none, false, none⟩

/-- The incorrect-judgment path of `handleCheck`: `setFeedback(null)` at entry,
`newAttempts = charAttempts + 1`, then the three-way escalation branch
(`newAttempts >= 3 && !postAnimation` → animation,
`newAttempts >= 2 && !postAnimation` → hint, else red-flash feedback). -/
def onIncorrectJudgment (s : EscState) : EscState :=
  if 3 ≤ s.charAttempts + 1 ∧ s.postAnimation = false then
    ⟨s.charAttempts + 1, ErrorPhase.animation, s.postAnimation, none⟩
  else if 2 ≤ s.charAttempts + 1 ∧ s.postAnimation = false then
    ⟨s.charAttempts + 1, ErrorPhase.hint, s.postAnimation, none⟩
  else
    ⟨s.charAttempts + 1, s.errorPhase, s.postAnimation, some Feedback.incorrect⟩

/-- `handleDismissHint`: only `setErrorPhase('none')`. -/
def handleDismissHint (s : EscState) : EscState :=
  { s with errorPhase := ErrorPhase.none }

/-- `handleDismissAnimation`: `setPostAnimation(true)` and
`setErrorPhase('none')` (it also clears the stroke cursor and glyph cache). -/
def handleDismissAnimation (s : EscState) : EscState :=
  { s with errorPhase := ErrorPhase.none, postAnimation := true }

/-- The character-change `useEffect` (deps `[charIdx, currentIndex]`): resets
attempts, phase and the post-animation latch. -/
def charChangeReset (s : EscState) : EscState :=
  { s with charAttempts := 0, errorPhase := ErrorPhase.none,
           postAnimation := false }

/-- The escalation fields of `advanceChar` (run on a correct judgment after
the brief green feedback): `setErrorPhase('none')`, `setCharAttempts(0)`,
feedback already cleared by the timeout. -/
def advanceCharState (s : EscState) : EscState :=
  { s with charAttempts := 0, errorPhase := ErrorPhase.none,
           feedback := none }

/-- Dismissal of whatever remedial phase is showing; `handleCheck` is only
reachable with `errorPhase === 'none'` (the Check button is rendered only
then), so consecutive judgments go through this. -/
def dismissRemedial (s : EscState) : EscState :=
  match s.errorPhase with
  | ErrorPhase.none => s
  | ErrorPhase.hint => handleDismissHint s
  | ErrorPhase.animation => handleDismissAnimation s

/-- State after `n` consecutive incorrect judgments on one character, each
judgment preceded by dismissing any remedial phase left by the previous one. -/
def incorrectRun : ℕ → EscState
  | 0 => escInit
  | n + 1 => onIncorrectJudgment (dismissRemedial (incorrectRun n))

/-- Helper for C1: from the fourth incorrect judgment on, the run is latched
post-animation in the Normal phase with the red-flash feedback. -/
theorem incorrectRun_after_four (k : ℕ) :
    incorrectRun (4 + k) = ⟨4 + k, ErrorPhase.none, true, some Feedback.incorrect⟩ := by
  induction k with
  | zero => decide
  | succ k ih =>
    have h : incorrectRun (4 + (k + 1)) =
        onIncorrectJudgment (dismissRemedial (incorrectRun (4 + k))) := rfl
    rw [h, ih]
    simp [dismissRemedial, onIncorrectJudgment]
    omega

/-- C1: under consecutive incorrect judgments from the initial state, the
remedial phase is exactly Normal-with-flash at attempt 1, Hint at attempt 2,
Demonstration (animation) at attempt 3, and Normal-with-flash with the
post-demonstration latch set at every attempt from 4 on — Hint and
Demonstration never recur after the demonstration has been dismissed. -/
theorem escalation_sequence :
    (incorrectRun 1).errorPhase = ErrorPhase.none ∧
    (incorrectRun 1).feedback = some Feedback.incorrect ∧
    (incorrectRun 2).errorPhase = ErrorPhase.hint ∧
    (incorrectRun 3).errorPhase = ErrorPhase.animation ∧
    (∀ n, 4 ≤ n →
      (incorrectRun n).errorPhase = ErrorPhase.none ∧
      (incorrectRun n).feedback = some Feedback.incorrect ∧
      (incorrectRun n).postAnimation = true) := by
  refine ⟨by decide, by decide, by decide, by decide, fun n hn => ?_⟩
  obtain ⟨k, rfl⟩ : ∃ k, n = 4 + k := ⟨n - 4, by omega⟩
  rw [incorrectRun_after_four k]
  exact ⟨rfl, rfl, rfl⟩

/-- Witness for C1 at the concrete sixth consecutive incorrect judgment. -/
theorem escalation_sequence_w :
    (incorrectRun 6).errorPhase = ErrorPhase.none ∧
    (incorrectRun 6).feedback = some Feedback.incorrect ∧
    (incorrectRun 6).postAnimation = true :=
  escalation_sequence.2.2.2.2 6 (by norm_num)

/-- C5: the escalation triple resets to `(0, Normal, false)` on a character
change, and on a correct judgment (whose `advanceChar` zeroes the counter and
phase and whose induced character change completes the reset); dismissing the
Hint keeps the counter and the latch unchanged, and dismissing the
Demonstration keeps the counter and sets — never clears — the latch. -/
theorem escalation_reset_only (s : EscState) :
    ((charChangeReset s).charAttempts = 0 ∧
      (charChangeReset s).errorPhase = ErrorPhase.none ∧
      (charChangeReset s).postAnimation = false) ∧
    ((charChangeReset (advanceCharState s)).charAttempts = 0 ∧
      (charChangeReset (advanceCharState s)).errorPhase = ErrorPhase.none ∧
      (charChangeReset (advanceCharState s)).postAnimation = false) ∧
    ((handleDismissHint s).charAttempts = s.charAttempts ∧
      (handleDismissHint s).postAnimation = s.postAnimation) ∧
    ((handleDismissAnimation s).charAttempts = s.charAttempts ∧
      (handleDismissAnimation s).postAnimation = true) :=
  ⟨⟨rfl, rfl, rfl⟩, ⟨rfl, rfl, rfl⟩, ⟨rfl, rfl⟩, ⟨rfl, rfl⟩⟩

/-- The glyph-consumer fields of the dictation screens: the active character
and the cached glyph data. -/
structure DictGlyphState where
  currentChar : String
  charData : Option CharacterData

/-- Asynchronous events touching the cached glyph: a character change, or an
in-flight `loadCharacterData(c).then(...)` callback firing. -/
inductive GlyphEvent
  | charChange (c : String)
  | fetchResolved (requested : String)

/-- The fetch callback of `handleCheck` (and of the guided screen's effect):
`if (d) setCharData(d)` — a non-null result is applied with no check that it
still matches the active character. -/
def applyGlyphResult (s : DictGlyphState) (d : Option CharacterData) :
    DictGlyphState :=
  match d with
  | none => s
  | some cd => { s with charData := some cd }

/-- One step of the glyph consumer: the character-change effect resets the
cache to null; a resolving fetch applies the provider's answer for the
character it was requested for. -/
def glyphStep (provider : String → Option CharacterData) (s : DictGlyphState) :
    GlyphEvent → DictGlyphState
  | GlyphEvent.charChange c => ⟨c, none⟩
  | GlyphEvent.fetchResolved c => applyGlyphResult s (provider c)

/-- A concrete one-stroke glyph, standing for the provider's data for "a". -/
def cdA : CharacterData := ⟨[[((1 : ℝ), 1)]], []⟩

/-- A concrete empty glyph, standing for the provider's data for every other
character. -/
def cdB : CharacterData := ⟨[], []⟩

/-- A concrete glyph provider distinguishing "a" from every other character. -/
def provider0 (c : String) : Option CharacterData :=
  if c = "a" then some cdA else some cdB

/-- C4 counterexample: a fetch issued for "a" that resolves after the active
character changed to "b" is applied anyway — the stored glyph is then the
one for "a", not the provider's glyph for the active character "b", so the
consumer does not verify-and-discard stale results. -/
theorem stale_glyph_applied_cex :
    (glyphStep provider0
      (glyphStep provider0 ⟨"a", some cdA⟩ (GlyphEvent.charChange "b"))
      (GlyphEvent.fetchResolved "a")).currentChar = "b" ∧
    (glyphStep provider0
      (glyphStep provider0 ⟨"a", some cdA⟩ (GlyphEvent.charChange "b"))
      (GlyphEvent.fetchResolved "a")).charData = some cdA ∧
    provider0 "b" ≠ some cdA := by
  refine ⟨rfl, by simp [glyphStep, applyGlyphResult, provider0], ?_⟩
  simp [provider0, cdA, cdB]

/-- C4 amended: the consumers apply any non-null resolved glyph without
verifying it matches the active character (and drop null results); staleness
is mitigated only by the character-change effect clearing the cache before
the fetch resolves, not by any verification at application time. -/
theorem glyph_fetch_no_staleness_check (provider : String → Option CharacterData)
    (s : DictGlyphState) (c : String) :
    glyphStep provider s (GlyphEvent.charChange c) = ⟨c, none⟩ ∧
    (∀ cd, provider c = some cd →
      glyphStep provider s (GlyphEvent.fetchResolved c) =
        ⟨s.currentChar, some cd⟩) ∧
    (provider c = none → glyphStep provider s (GlyphEvent.fetchResolved c) = s) := by
  refine ⟨rfl, fun cd h => ?_, fun h => ?_⟩
  · simp [glyphStep, applyGlyphResult, h]
  · simp [glyphStep, applyGlyphResult, h]

/-- Witness for the C4 amended theorem: the stale resolution applied onto the
"b" screen state. -/
theorem glyph_fetch_no_staleness_check_w :
    glyphStep provider0 ⟨"b", none⟩ (GlyphEvent.fetchResolved "a") =
      ⟨"b", some cdA⟩ :=
  (glyph_fetch_no_staleness_check provider0 ⟨"b", none⟩ "a").2.1 cdA
    (by simp [provider0])

/-- The tested-mode judgment of `handleCheck`:
`recognized.includes(currentChar)`, strings modelled as character lists; a
failed oracle call yields the empty `recognized` (the `''` fallback). -/
def judgeCorrect (recognized expected : List Char) : Bool :=
  decide (expected <:+: recognized)

/-- C10: a recognition result is judged correct exactly when it contains the
expected character as a substring: a result that differs from the expected
character but contains it (here surrounded by other characters) is still
judged correct, while the empty result — including every oracle failure
mapped to it — is always judged incorrect. -/
theorem recognition_substring_judgment (c : Char) :
    (∀ recognized, judgeCorrect recognized [c] = true ↔ [c] <:+: recognized) ∧
    (judgeCorrect ['x', c, 'y'] [c] = true ∧ ['x', c, 'y'] ≠ [c]) ∧
    judgeCorrect [] [c] = false := by
  refine ⟨fun r => by simp [judgeCorrect], ⟨?_, by simp⟩, ?_⟩
  · simp only [judgeCorrect, decide_eq_true_eq]
    exact ⟨['x'], ['y'], rfl⟩
  · simp only [judgeCorrect, decide_eq_false_iff_not]
    rintro ⟨s, t, h⟩
    simpa using congrArg List.length h

/-- Witness for C3 amended at a concrete one-point gesture. -/
theorem noglyph_fallback_behavior_w :
    totalStrokes none = 0 ∧
    validateStroke none false 0 [((2 : ℝ), 3)] 300 = VOutcome.cleared :=
  ⟨(noglyph_fallback_behavior false 0 [((2 : ℝ), 3)] 300 ⟨0, []⟩).1,
   (noglyph_fallback_behavior false 0 [((2 : ℝ), 3)] 300 ⟨0, []⟩).2.2.1⟩

/-- Witness for C5 at concrete escalation states. -/
theorem escalation_reset_only_w :
    (charChangeReset ⟨5, ErrorPhase.hint, true, none⟩).charAttempts = 0 ∧
    (handleDismissAnimation ⟨5, ErrorPhase.animation, false, none⟩).charAttempts = 5 :=
  ⟨(escalation_reset_only ⟨5, ErrorPhase.hint, true, none⟩).1.1,
   (escalation_reset_only ⟨5, ErrorPhase.animation, false, none⟩).2.2.2.1⟩

/-- Witness for C10 at the concrete expected character "m". -/
theorem recognition_substring_judgment_w :
    judgeCorrect ['x', 'm', 'y'] ['m'] = true ∧ judgeCorrect [] ['m'] = false :=
  ⟨(recognition_substring_judgment 'm').2.1.1,
   (recognition_substring_judgment 'm').2.2⟩
